import Mathlib

/-!
Verification development for the Claudetorio session broker
(`packages/broker/main.py`).

The broker is an event-driven service: one process, cooperative tasks,
with PostgreSQL tables (users, sessions, saves, score_history,
session_snapshots), a Redis lock per slot, and an in-memory map of live
websocket subscribers.  We embed the persisted and in-memory state as a
`BrokerState` record of lists and each request handler / background-loop
body as a pure state-transition function.  Calls that leave the process
(RCON to the game, the save-file write) are modelled by oracle arguments
describing the outcome of the call; everything the Python code does with
those outcomes (parsing, fallbacks, exception handling) is translated
faithfully.  Machine `int`s are modelled as `Int`/`Nat` (no overflow is
possible at these magnitudes in Python).
-/

/-- Session status column (`sessions.status`): the code only ever writes
the literals `'active'`, `'completed'`, `'expired'`. -/
inductive Status where
  | active
  | completed
  | expired
deriving DecidableEq, Repr

/-- Row of the `sessions` table. Times are seconds since an arbitrary
epoch (`TIMESTAMPTZ` in the schema). -/
structure SessionRow where
  sessionId : String
  username : String
  slot : Nat
  startedAt : Nat
  endedAt : Option Nat
  finalScore : Option Int
  status : Status
  saveLoaded : Option String
  saveCreated : Option String
deriving DecidableEq, Repr

/-- Row of the `saves` table (unique on `(username, save_name)`). -/
structure SaveRow where
  username : String
  saveName : String
  filePath : String
  createdAt : Nat
  lastPlayed : Nat
  scoreAtSave : Int
  playtimeSeconds : Int
deriving DecidableEq, Repr

/-- Row of the `users` table. -/
structure UserRow where
  username : String
  bestScore : Int
  totalPlaytimeSeconds : Int
deriving DecidableEq, Repr

/-- Row of the `score_history` table.  `itemsProduced` is the JSON text
the code stores (opaque to the lifecycle logic). -/
structure ScoreHistoryRow where
  username : String
  sessionId : String
  recordedAt : Nat
  score : Int
  itemsProduced : String
deriving DecidableEq, Repr

/-- Row of the `session_snapshots` table.  The four JSON payloads are
opaque strings. -/
structure SnapshotRow where
  sessionId : String
  finalScore : Int
  playtimeSeconds : Int
  researchData : String
  productionData : String
  inventoryData : String
  factoryData : String
deriving DecidableEq, Repr

/-- The four JSON payloads produced by `_sync_get_research`,
`_sync_get_production`, `_sync_get_inventory`, `_sync_get_factory_data`.
Those helpers catch every exception internally and always return a dict,
so a snapshot capture supplies some payload; we carry it opaquely. -/
structure SnapData where
  research : String
  production : String
  inventory : String
  factory : String
deriving DecidableEq, Repr

/-- The whole broker state: the five tables, the Redis slot locks
(`slot_lock:{slot} -> username`), and the in-memory
`active_websockets : session_id -> list of sockets` (sockets are
identified by a `Nat` handle). -/
structure BrokerState where
  users : List UserRow
  sessions : List SessionRow
  saves : List SaveRow
  scoreHistory : List ScoreHistoryRow
  snapshots : List SnapshotRow
  locks : List (Nat × String)
  websockets : List (String × List Nat)
deriving DecidableEq, Repr

/-- `Config.TOTAL_SLOTS`. -/
def TOTAL_SLOTS : Nat := 20

/-- `Config.SESSION_TIMEOUT_HOURS = 2`, expressed in seconds as the code
uses it (`timedelta(hours=2)`, `ex=2*3600`). -/
def SESSION_TIMEOUT_SECONDS : Nat := 7200

/-- `Config.BASE_RCON_PORT`. -/
def BASE_RCON_PORT : Nat := 27000

/-- `Config.BASE_UDP_PORT`. -/
def BASE_UDP_PORT : Nat := 34197

/-- Error taxonomy of the HTTP layer: 409, 404, 503, and the generic 500
raised when an uncaught exception escapes a handler. -/
inductive ApiError where
  | conflict
  | notFound
  | unavailable
  | internal (msg : String)
deriving DecidableEq, Repr

/-- Outcome of one RCON score query, as observed by
`_sync_get_slot_score`: either the call raised (`exn`), or it returned
text `raw` for which the regex `\["player"\] = (-?\d+)` either matched
(`regexPlayer = some k`) or, failing that, `json.loads` produced a dict
whose `player` entry is `jsonPlayer` and whose full text serves as the
`items` payload (`jsonItems`); `jsonPlayer = none` covers both a JSON
parse failure and a missing/non-integer `player` key (both of which the
code turns into 0). -/
inductive ScoreReply where
  | exn (msg : String)
  | resp (raw : String) (regexPlayer : Option Int) (jsonPlayer : Option (Int × String))
deriving DecidableEq, Repr

/-- Return value of `_sync_get_slot_score`: the dict
`{"score": ..., "items": ..., "error"?: ...}` (items carried as opaque
JSON text, the empty dict as `""`). -/
structure ScoreData where
  score : Int
  items : String
  rconError : Option String
deriving DecidableEq, Repr

/-- `_sync_get_slot_score` (broker/main.py lines 236-272): catches every
exception and returns score 0; empty response gives 0; regex match wins;
JSON fallback next; otherwise 0. -/
def sync_get_slot_score (r : ScoreReply) : ScoreData :=
  match r with
  | .exn msg => ⟨0, "", some msg⟩
  | .resp raw regexPlayer jsonPlayer =>
    if raw = "" then ⟨0, "", none⟩
    else
      match regexPlayer with
      | some k => ⟨k, "", none⟩
      | none =>
        match jsonPlayer with
        | some (k, items) => ⟨k, items, none⟩
        | none => ⟨0, "", none⟩

/-- Models Python `str.lower()` on usernames (the request pattern only
admits `[a-z0-9_]`, on which this is the identity, but the handler
applies it unconditionally). -/
def pyLower (s : String) : String :=
  String.mk (s.data.map Char.toLower)

/-- Sessions with `status = 'active'` (the `WHERE status = 'active'`
queries). -/
def activeSessions (st : BrokerState) : List SessionRow :=
  st.sessions.filter (fun s => decide (s.status = Status.active))

/-- `SELECT slot FROM sessions WHERE status = 'active'` — the set of
slots referenced by an active session. -/
def activeSlots (st : BrokerState) : List Nat :=
  (activeSessions st).map (fun s => s.slot)

/-- `get_free_slot` (lines 328-339): scan `range(TOTAL_SLOTS)` and
return the first slot not referenced by an active session. -/
def get_free_slot (st : BrokerState) : Option Nat :=
  (List.range TOTAL_SLOTS).find? (fun slot => decide (slot ∉ activeSlots st))

/-- `claim_slot_lock` (lines 342-351): Redis `SET NX` — succeeds only if
no lock for the slot exists, in which case the lock is recorded. -/
def claim_slot_lock (st : BrokerState) (slot : Nat) (username : String) :
    Bool × BrokerState :=
  if st.locks.any (fun l => decide (l.1 = slot)) then (false, st)
  else (true, { st with locks := st.locks ++ [(slot, username)] })

/-- `release_slot_lock` (lines 354-357): Redis `DELETE` of the slot key. -/
def release_slot_lock (st : BrokerState) (slot : Nat) : BrokerState :=
  { st with locks := st.locks.filter (fun l => decide (l.1 ≠ slot)) }

/-- `INSERT INTO users (username) VALUES ($1) ON CONFLICT DO NOTHING`,
with the schema defaults `best_score = 0`, `total_playtime_seconds = 0`. -/
def ensureUser (users : List UserRow) (u : String) : List UserRow :=
  if users.any (fun r => decide (r.username = u)) then users
  else users ++ [⟨u, 0, 0⟩]

/-- `UPDATE users SET best_score = GREATEST(best_score, $1),
total_playtime_seconds = total_playtime_seconds + $2 WHERE username = $3`. -/
def updateUserStats (users : List UserRow) (u : String) (finalScore : Int)
    (playtime : Int) : List UserRow :=
  users.map (fun r =>
    if r.username = u then
      { r with bestScore := max r.bestScore finalScore,
               totalPlaytimeSeconds := r.totalPlaytimeSeconds + playtime }
    else r)

/-- Path `SAVES_DIR / username / f"{name}.zip"` rendered as a string. -/
def savePath (username saveName : String) : String :=
  username ++ "/" ++ saveName ++ ".zip"

/-- The saves upsert used by `release_session` (lines 671-677):
`ON CONFLICT (username, save_name) DO UPDATE SET last_played = NOW(),
score_at_save = $4, playtime_seconds = saves.playtime_seconds + $5`.
The conflict branch does not touch `file_path` or `created_at`. -/
def upsertSaveRelease (saves : List SaveRow) (u nm path : String)
    (score : Int) (playtime : Int) (now : Nat) : List SaveRow :=
  if saves.any (fun r => decide (r.username = u ∧ r.saveName = nm)) then
    saves.map (fun r =>
      if r.username = u ∧ r.saveName = nm then
        { r with lastPlayed := now, scoreAtSave := score,
                 playtimeSeconds := r.playtimeSeconds + playtime }
      else r)
  else saves ++ [⟨u, nm, path, now, now, score, playtime⟩]

/-- The saves upsert used by `session_timeout_checker` (lines 437-442):
`ON CONFLICT (username, save_name) DO UPDATE SET last_played = NOW(),
score_at_save = $4` — note: no `playtime_seconds` in the SET list. -/
def upsertSaveAutosave (saves : List SaveRow) (u nm path : String)
    (score : Int) (playtime : Int) (now : Nat) : List SaveRow :=
  if saves.any (fun r => decide (r.username = u ∧ r.saveName = nm)) then
    saves.map (fun r =>
      if r.username = u ∧ r.saveName = nm then
        { r with lastPlayed := now, scoreAtSave := score }
      else r)
  else saves ++ [⟨u, nm, path, now, now, score, playtime⟩]

/-- The snapshot upsert of `release_session` (lines 651-660):
`INSERT INTO session_snapshots ... ON CONFLICT (session_id) DO UPDATE
SET final_score, playtime_seconds, research_data, production_data,
inventory_data, factory_data`. -/
def upsertSnapshot (snaps : List SnapshotRow) (sid : String)
    (finalScore : Int) (playtime : Int) (d : SnapData) : List SnapshotRow :=
  if snaps.any (fun r => decide (r.sessionId = sid)) then
    snaps.map (fun r =>
      if r.sessionId = sid then
        { r with finalScore := finalScore, playtimeSeconds := playtime,
                 researchData := d.research, productionData := d.production,
                 inventoryData := d.inventory, factoryData := d.factory }
      else r)
  else snaps ++ [⟨sid, finalScore, playtime, d.research, d.production,
                  d.inventory, d.factory⟩]

/-- Response of a successful claim (the fields derived from the slot). -/
structure ClaimResp where
  sessionId : String
  username : String
  slot : Nat
  rconPort : Nat
  udpPort : Nat
  expiresAt : Nat
deriving DecidableEq, Repr

def mkClaimResp (sid username : String) (slot : Nat) (now : Nat) : ClaimResp :=
  ⟨sid, username, slot, BASE_RCON_PORT + slot, BASE_UDP_PORT + slot,
   now + SESSION_TIMEOUT_SECONDS⟩

/-- `claim_session` (lines 500-609).  Oracle arguments: `sid` is the
fresh `uuid4()[:8]` id (a duplicate id makes the `INSERT` hit the
primary key, which the generic handler turns into a released lock and a
500), `now` the current time, `saveExists` the result of
`save_path.exists()`.  Loading/resetting the slot is a fire-and-forget
background task with no effect on broker state. -/
def claim_session (st : BrokerState) (username0 : String)
    (saveName : Option String) (sid : String) (now : Nat)
    (saveExists : Bool) : BrokerState × Except ApiError ClaimResp :=
  let username := pyLower username0
  match st.sessions.find?
      (fun s => decide (s.username = username ∧ s.status = Status.active)) with
  | some _ => (st, .error .conflict)
  | none =>
    match get_free_slot st with
    | none => (st, .error .unavailable)
    | some slot =>
      if st.locks.any (fun l => decide (l.1 = slot)) then
        (st, .error .unavailable)
      else
        let st1 : BrokerState := { st with locks := st.locks ++ [(slot, username)] }
        let st2 : BrokerState := { st1 with users := ensureUser st1.users username }
        if st2.sessions.any (fun s => decide (s.sessionId = sid)) then
          -- duplicate session_id: the INSERT raises, the generic except
          -- releases the slot lock and surfaces a 500
          (release_slot_lock st2 slot, .error (.internal "session insert failed"))
        else
          let newSess : SessionRow :=
            ⟨sid, username, slot, now, none, none, Status.active, saveName, none⟩
          let st3 : BrokerState := { st2 with sessions := st2.sessions ++ [newSess] }
          match saveName with
          | none => (st3, .ok (mkClaimResp sid username slot now))
          | some _ =>
            if saveExists then (st3, .ok (mkClaimResp sid username slot now))
            else
              -- roll back: release the lock, delete the session, 404
              let st4 := release_slot_lock st3 slot
              let st5 : BrokerState :=
                { st4 with sessions :=
                    st4.sessions.filter (fun s => decide (s.sessionId ≠ sid)) }
              (st5, .error .notFound)

/-- Response of a successful release:
`{"status": "released", "final_score", "playtime_minutes", "saved_as"}`. -/
structure ReleaseResp where
  finalScore : Int
  playtimeMinutes : Int
  savedAs : Option String
deriving DecidableEq, Repr

/-- The terminal update of `release_session` on the session row:
`UPDATE sessions SET status = 'completed', ended_at = NOW(),
final_score = $1, save_created = $2 WHERE session_id = $3`. -/
def completeSessionRow (sid : String) (now : Nat) (finalScore : Int)
    (saveName : Option String) (s : SessionRow) : SessionRow :=
  if s.sessionId = sid then
    { s with status := Status.completed, endedAt := some now,
             finalScore := some finalScore, saveCreated := saveName }
  else s

/-- Tail of `release_session` after the optional save (lines 679-699):
terminal session update, user aggregates, lock release, websocket
cleanup (`del active_websockets[session_id]`). -/
def finishRelease (st : BrokerState) (sess : SessionRow) (sid : String)
    (saveName : Option String) (now : Nat) (finalScore : Int)
    (playtime : Int) : BrokerState :=
  { st with
    sessions := st.sessions.map (completeSessionRow sid now finalScore saveName),
    users := updateUserStats st.users sess.username finalScore playtime,
    locks := st.locks.filter (fun l => decide (l.1 ≠ sess.slot)),
    websockets := st.websockets.filter (fun e => decide (e.1 ≠ sid)) }

/-- `release_session` (lines 612-706).  Oracles: `scoreReply` for the
RCON score call, `snapOk` for the snapshot upsert (the four RCON capture
helpers never raise, so only the DB write can fail — its failure is
caught and logged, line 662), `snapData` for the captured payloads, and
`saveOk` for `save_slot_state`.  `save_slot_state` re-raises on failure
(line 323) and `release_session` does not catch it, so a failed save
write aborts the handler after the snapshot step: the session row is not
updated, the lock is not released, and the caller gets a 500. -/
def release_session (st : BrokerState) (sid : String)
    (saveName : Option String) (now : Nat) (scoreReply : ScoreReply)
    (snapOk : Bool) (snapData : SnapData) (saveOk : Bool) :
    BrokerState × Except ApiError ReleaseResp :=
  match st.sessions.find?
      (fun s => decide (s.sessionId = sid ∧ s.status = Status.active)) with
  | none => (st, .error .notFound)
  | some sess =>
    let finalScore := (sync_get_slot_score scoreReply).score
    let playtime : Int := (now : Int) - (sess.startedAt : Int)
    let st1 : BrokerState :=
      if snapOk then
        { st with snapshots := upsertSnapshot st.snapshots sid finalScore playtime snapData }
      else st
    match saveName with
    | none =>
      (finishRelease st1 sess sid none now finalScore playtime,
       .ok ⟨finalScore, playtime.fdiv 60, none⟩)
    | some nm =>
      if saveOk then
        let newSaves :=
          upsertSaveRelease st1.saves sess.username nm
            (savePath sess.username nm) finalScore playtime now
        let st2 : BrokerState := { st1 with saves := newSaves }
        (finishRelease st2 sess sid (some nm) now finalScore playtime,
         .ok ⟨finalScore, playtime.fdiv 60, some nm⟩)
      else
        -- save_slot_state raised: the exception escapes the handler
        (st1, .error (.internal "save failed"))

/-- The autosave name `f"autosave_{utcnow().strftime(...)}"`; the
timestamp rendering is modelled as the decimal time. -/
def autosaveName (now : Nat) : String :=
  "autosave_" ++ toString now

/-- The terminal update of `session_timeout_checker` on the session row:
`UPDATE sessions SET status = 'expired', ended_at = NOW(),
final_score = $2 WHERE session_id = $1` — unlike the release path it
does not set `save_created`. -/
def expireSessionRow (sid : String) (now : Nat) (finalScore : Int)
    (s : SessionRow) : SessionRow :=
  if s.sessionId = sid then
    { s with status := Status.expired, endedAt := some now,
             finalScore := some finalScore }
  else s

/-- Body of the per-session loop of `session_timeout_checker`
(lines 417-461): read the score (failure degrades to 0), recompute the
playtime from the re-fetched `started_at`, attempt the autosave (a
`save_slot_state` failure is caught here, line 443, skipping the saves
upsert as well), mark the session expired, update the user aggregates,
release the slot lock.  No snapshot is captured and the websocket map is
left untouched. -/
def expire_one (st : BrokerState) (sid username : String) (slot : Nat)
    (now : Nat) (scoreReply : ScoreReply) (saveOk : Bool) : BrokerState :=
  match st.sessions.find? (fun s => decide (s.sessionId = sid)) with
  | none => st
  | some row =>
    let finalScore := (sync_get_slot_score scoreReply).score
    let playtime : Int := (now : Int) - (row.startedAt : Int)
    let nm := autosaveName now
    let newSaves :=
      upsertSaveAutosave st.saves username nm
        (savePath username nm) finalScore playtime now
    let st1 : BrokerState :=
      if saveOk then { st with saves := newSaves } else st
    { st1 with
      sessions := st1.sessions.map (expireSessionRow sid now finalScore),
      users := updateUserStats st1.users username finalScore playtime,
      locks := st1.locks.filter (fun l => decide (l.1 ≠ slot)) }

/-- One sweep of `session_timeout_checker` (lines 408-461): select the
active sessions with `started_at < now - budget`, then expire each.
Oracles give each session its RCON outcome and save-write outcome. -/
def session_timeout_tick (st : BrokerState) (now : Nat)
    (orc : String → ScoreReply) (saveOrc : String → Bool) : BrokerState :=
  let expired := st.sessions.filter (fun s =>
    decide (s.status = Status.active ∧ s.startedAt + SESSION_TIMEOUT_SECONDS < now))
  expired.foldl (fun acc s =>
    expire_one acc s.sessionId s.username s.slot now (orc s.sessionId)
      (saveOrc s.sessionId)) st

/-- The subscribers recorded for a session
(`active_websockets.get(session_id, [])`). -/
def subscribersOf (m : List (String × List Nat)) (sid : String) : List Nat :=
  ((m.find? (fun e => decide (e.1 = sid))).map (fun e => e.2)).getD []

/-- The broadcast block of `score_polling_loop` (lines 387-398): if the
session has subscribers, try to send to each; a send failure is
swallowed (`except: pass`) — the map itself is not modified.  Returns
the (unchanged) map and the list of sockets actually delivered to. -/
def broadcast (m : List (String × List Nat)) (sid : String)
    (reachable : Nat → Bool) : List (String × List Nat) × List Nat :=
  match m.find? (fun e => decide (e.1 = sid)) with
  | none => (m, [])
  | some e => (m, e.2.filter reachable)

/-- Per-session body of `score_polling_loop` (lines 372-398): poll the
score (failure degrades to 0 inside `_sync_get_slot_score`), append a
`score_history` row, broadcast to the session's subscribers. -/
def poll_step (now : Nat) (orc : String → ScoreReply)
    (reachable : Nat → Bool) (acc : BrokerState × List (String × Nat))
    (s : SessionRow) : BrokerState × List (String × Nat) :=
  let sd := sync_get_slot_score (orc s.sessionId)
  let st1 : BrokerState :=
    { acc.1 with scoreHistory := acc.1.scoreHistory ++
        [⟨s.username, s.sessionId, now, sd.score, sd.items⟩] }
  let pb := broadcast st1.websockets s.sessionId reachable
  ({ st1 with websockets := pb.1 },
   acc.2 ++ pb.2.map (fun w => (s.sessionId, w)))

/-- One tick of `score_polling_loop` (lines 362-401): list the active
sessions, then poll and broadcast each in turn.  Also returns the list
of `(session_id, socket)` deliveries made during the tick. -/
def score_poll_tick (st : BrokerState) (now : Nat)
    (orc : String → ScoreReply) (reachable : Nat → Bool) :
    BrokerState × List (String × Nat) :=
  (activeSessions st).foldl (poll_step now orc reachable) (st, [])

/-- `session_stream` subscription (lines 1120-1138): only an existing
active session gains the socket; otherwise the connection is closed. -/
def session_stream_subscribe (st : BrokerState) (sid : String) (w : Nat) :
    BrokerState :=
  match st.sessions.find? (fun s => decide (s.sessionId = sid)) with
  | none => st
  | some sess =>
    if sess.status = Status.active then
      if st.websockets.any (fun e => decide (e.1 = sid)) then
        { st with websockets := st.websockets.map (fun e =>
            if e.1 = sid then (e.1, e.2 ++ [w]) else e) }
      else
        { st with websockets := st.websockets ++ [(sid, [w])] }
    else st

/-- The `finally` cleanup of `session_stream` (lines 1146-1148): remove
the socket from the session's list if the session still has an entry. -/
def session_stream_unsubscribe (st : BrokerState) (sid : String) (w : Nat) :
    BrokerState :=
  if st.websockets.any (fun e => decide (e.1 = sid)) then
    { st with websockets := st.websockets.map (fun e =>
        if e.1 = sid then (e.1, e.2.erase w) else e) }
  else st

/-- One raw entity record of the `render` JSON: the keys the code reads,
each possibly absent (`e.get(..., default)`); `position` is carried as
opaque JSON text. -/
structure RawEntity where
  name : Option String
  position : Option String
  direction : Option Int
deriving DecidableEq, Repr

/-- The parse of the `render` reply: the `entities` list
(`data.get('entities', [])`, so a missing key is the empty list). -/
structure RenderData where
  entities : List RawEntity
deriving DecidableEq, Repr

/-- Outcome of the `render` RCON call as observed by
`_sync_get_entities_list`: an exception, or text `raw` together with its
`json.loads` parse (`none` when the text is not valid JSON). -/
inductive EntitiesReply where
  | exn (msg : String)
  | resp (raw : String) (parsed : Option RenderData)
deriving DecidableEq, Repr

/-- One cleaned entity record (name, position, direction). -/
structure CleanEntity where
  name : String
  position : String
  direction : Int
deriving DecidableEq, Repr

/-- Return shape of `_sync_get_entities_list`. -/
structure EntitiesResult where
  entities : List CleanEntity
  total : Nat
  errMsg : Option String
deriving DecidableEq, Repr

/-- Python `str.strip('"')`: drop every leading and trailing `"`. -/
def pyStripQuotes (s : String) : String :=
  String.mk (((s.data.dropWhile (fun c => c = '\"')).reverse.dropWhile
    (fun c => c = '\"')).reverse)

/-- Membership test for `'Error' in response` (structural substring
scan, kernel-computable). -/
def startsWithChars : List Char → List Char → Bool
  | [], _ => true
  | _ :: _, [] => false
  | p :: ps, t :: ts => p = t && startsWithChars ps ts

def containsChars (pat : List Char) : List Char → Bool
  | [] => startsWithChars pat []
  | c :: rest => startsWithChars pat (c :: rest) || containsChars pat rest

def containsError (s : String) : Bool :=
  containsChars "Error".data s.data

/-- The per-entity cleanup (lines 932-936):
`name = e.get('name', 'unknown').strip('"')`, `position = e.get('position', {})`,
`direction = e.get('direction', 0)` (the empty dict default rendered ""). -/
def cleanEntity (e : RawEntity) : CleanEntity :=
  ⟨pyStripQuotes (e.name.getD "unknown"), e.position.getD "", e.direction.getD 0⟩

/-- `_sync_get_entities_list` (lines 911-946): exception → empty with an
error marker; empty or `'Error'`-containing response → empty, total 0;
JSON parse failure → empty, total 0, parse-error marker; otherwise the
first 200 entities cleaned, with `total` the full count. -/
def sync_get_entities_list (r : EntitiesReply) : EntitiesResult :=
  match r with
  | .exn msg => ⟨[], 0, some msg⟩
  | .resp raw parsed =>
    if raw = "" ∨ containsError raw = true then ⟨[], 0, none⟩
    else
      match parsed with
      | none => ⟨[], 0, some "Parse error"⟩
      | some data =>
        ⟨(data.entities.take 200).map cleanEntity, data.entities.length, none⟩

/-- `get_session_entities` endpoint (lines 1104-1117): 404 on unknown
session, an "only for active sessions" empty result on a non-active one,
otherwise the live `_sync_get_entities_list`. -/
def get_session_entities (st : BrokerState) (sid : String)
    (r : EntitiesReply) : Except ApiError EntitiesResult :=
  match st.sessions.find? (fun s => decide (s.sessionId = sid)) with
  | none => .error .notFound
  | some sess =>
    if sess.status = Status.active then .ok (sync_get_entities_list r)
    else .ok ⟨[], 0, none⟩

/-- The state at process start: empty tables, no locks, no subscribers. -/
def initialState : BrokerState := ⟨[], [], [], [], [], [], []⟩

/-- The states reachable by the broker's operations, starting from the
empty store: claims, releases, sweeper ticks, score-poll ticks, and
websocket subscribe/unsubscribe. -/
inductive Reach : BrokerState → Prop where
  | init : Reach initialState
  | claim (st : BrokerState) (u : String) (sv : Option String) (sid : String)
      (now : Nat) (ex : Bool) : Reach st →
      Reach (claim_session st u sv sid now ex).1
  | release (st : BrokerState) (sid : String) (sv : Option String) (now : Nat)
      (r : ScoreReply) (snapOk : Bool) (sd : SnapData) (saveOk : Bool) :
      Reach st → Reach (release_session st sid sv now r snapOk sd saveOk).1
  | sweep (st : BrokerState) (now : Nat) (orc : String → ScoreReply)
      (saveOrc : String → Bool) : Reach st →
      Reach (session_timeout_tick st now orc saveOrc)
  | poll (st : BrokerState) (now : Nat) (orc : String → ScoreReply)
      (rb : Nat → Bool) : Reach st → Reach (score_poll_tick st now orc rb).1
  | sub (st : BrokerState) (sid : String) (w : Nat) : Reach st →
      Reach (session_stream_subscribe st sid w)
  | unsub (st : BrokerState) (sid : String) (w : Nat) : Reach st →
      Reach (session_stream_unsubscribe st sid w)

/-- The active-session uniqueness invariant of the data model: distinct
session ids, and among the `active` rows no slot and no username occurs
twice. -/
def SessionsOK (l : List SessionRow) : Prop :=
  l.Pairwise (fun a b => a.sessionId ≠ b.sessionId) ∧
  (l.filter (fun s => decide (s.status = Status.active))).Pairwise
    (fun a b => a.slot ≠ b.slot) ∧
  (l.filter (fun s => decide (s.status = Status.active))).Pairwise
    (fun a b => a.username ≠ b.username)
/-- The `(username, save_name)` key predicate of the `saves` unique
constraint. -/
def saveKey (u nm : String) : SaveRow → Bool :=
  fun r => decide (r.username = u ∧ r.saveName = nm)

/-! ### Shared list lemmas -/

theorem range_find?_some {p : Nat → Bool} :
    ∀ {N s : Nat}, (List.range N).find? p = some s →
      p s = true ∧ s < N ∧ ∀ t, t < s → p t = false := by
  intro N
  induction N with
  | zero =>
    intro s h
    rw [List.range_zero, List.find?_nil] at h
    exact Option.noConfusion h
  | succ n ih =>
    intro s h
    rw [List.range_succ, List.find?_append] at h
    cases h1 : (List.range n).find? p with
    | some a =>
      rw [h1] at h
      simp only [Option.or_some] at h
      cases h
      rcases ih h1 with ⟨hp, hlt, hmin⟩
      exact ⟨hp, Nat.lt_succ_of_lt hlt, hmin⟩
    | none =>
      rw [h1] at h
      simp only [Option.none_or] at h
      cases hN : p n with
      | true =>
        simp only [List.find?, hN] at h
        cases h
        refine ⟨hN, Nat.lt_succ_self _, ?_⟩
        intro t ht
        have := List.find?_eq_none.mp h1 t (List.mem_range.mpr ht)
        simpa using this
      | false =>
        simp only [List.find?, hN] at h
        exact Option.noConfusion h

theorem range_find?_none {p : Nat → Bool} {N : Nat}
    (h : ∀ t, t < N → p t = false) : (List.range N).find? p = none := by
  refine List.find?_eq_none.mpr ?_
  intro t ht
  simp [h t (List.mem_range.mp ht)]

theorem find?_map_pres {α : Type} {f : α → α} {p : α → Bool}
    (h : ∀ x, p (f x) = p x) (l : List α) :
    (l.map f).find? p = (l.find? p).map f := by
  rw [List.find?_map]
  have hpf : (p ∘ f) = p := funext h
  rw [hpf]

theorem filter_map_comm {α : Type} {f : α → α} {p : α → Bool}
    (h : ∀ x, p (f x) = p x) (l : List α) :
    (l.map f).filter p = (l.filter p).map f := by
  rw [List.filter_map]
  have hpf : (p ∘ f) = p := funext h
  rw [hpf]

/-- A map that either fixes a row or makes it inactive shrinks the
active sublist. -/
theorem filter_active_map_sublist (f : SessionRow → SessionRow)
    (h : ∀ x, f x = x ∨ (f x).status ≠ Status.active) :
    ∀ l : List SessionRow,
      List.Sublist
        ((l.map f).filter (fun s => decide (s.status = Status.active)))
        (l.filter (fun s => decide (s.status = Status.active))) := by
  intro l
  induction l with
  | nil => simp
  | cons x xs ih =>
    rcases h x with hx | hx
    · by_cases hs : x.status = Status.active
      · simpa [hx, hs] using ih.cons₂ x
      · simp [hx, hs]
        exact ih
    · have htail : List.Sublist
          (xs.filter (fun s => decide (s.status = Status.active)))
          ((x :: xs).filter (fun s => decide (s.status = Status.active))) := by
        by_cases hs : x.status = Status.active
        · simp [hs]
        · simp [hs]
      simpa [hx] using ih.trans htail

theorem sessionsOK_map (f : SessionRow → SessionRow)
    (hid : ∀ x, (f x).sessionId = x.sessionId)
    (hde : ∀ x, f x = x ∨ (f x).status ≠ Status.active)
    {l : List SessionRow} (h : SessionsOK l) : SessionsOK (l.map f) := by
  obtain ⟨h1, h2, h3⟩ := h
  refine ⟨?_, ?_, ?_⟩
  · rw [List.pairwise_map]
    refine h1.imp ?_
    intro a b hab
    rw [hid a, hid b]
    exact hab
  · exact h2.sublist (filter_active_map_sublist f hde l)
  · exact h3.sublist (filter_active_map_sublist f hde l)

theorem sessionsOK_append {l : List SessionRow} {newSess : SessionRow}
    (h : SessionsOK l)
    (hid : ∀ s ∈ l, s.sessionId ≠ newSess.sessionId)
    (hslot : ∀ s ∈ l, s.status = Status.active → s.slot ≠ newSess.slot)
    (huser : ∀ s ∈ l, s.status = Status.active → s.username ≠ newSess.username) :
    SessionsOK (l ++ [newSess]) := by
  obtain ⟨h1, h2, h3⟩ := h
  have hfilter : (l ++ [newSess]).filter (fun s => decide (s.status = Status.active)) =
      l.filter (fun s => decide (s.status = Status.active)) ++
        [newSess].filter (fun s => decide (s.status = Status.active)) :=
    List.filter_append l [newSess]
  refine ⟨?_, ?_, ?_⟩
  · rw [List.pairwise_append]
    refine ⟨h1, List.pairwise_singleton _ _, ?_⟩
    intro a ha b hb
    rw [List.mem_singleton] at hb
    subst hb
    exact hid a ha
  · rw [hfilter, List.pairwise_append]
    refine ⟨h2, List.Pairwise.filter _ (List.pairwise_singleton _ _), ?_⟩
    intro a ha b hb
    rcases List.mem_filter.mp ha with ⟨hal, hact⟩
    have hb' : b = newSess := by
      rcases List.mem_filter.mp hb with ⟨hb1, _⟩
      simpa using hb1
    subst hb'
    exact hslot a hal (by simpa using hact)
  · rw [hfilter, List.pairwise_append]
    refine ⟨h3, List.Pairwise.filter _ (List.pairwise_singleton _ _), ?_⟩
    intro a ha b hb
    rcases List.mem_filter.mp ha with ⟨hal, hact⟩
    have hb' : b = newSess := by
      rcases List.mem_filter.mp hb with ⟨hb1, _⟩
      simpa using hb1
    subst hb'
    exact huser a hal (by simpa using hact)

/-! ### Invariant preservation of each operation -/

theorem completeSessionRow_id (sid : String) (now : Nat) (fs : Int)
    (sv : Option String) (x : SessionRow) :
    (completeSessionRow sid now fs sv x).sessionId = x.sessionId := by
  unfold completeSessionRow
  by_cases h : x.sessionId = sid <;> simp [h]

theorem completeSessionRow_deactivates (sid : String) (now : Nat) (fs : Int)
    (sv : Option String) (x : SessionRow) :
    completeSessionRow sid now fs sv x = x ∨
      (completeSessionRow sid now fs sv x).status ≠ Status.active := by
  unfold completeSessionRow
  by_cases h : x.sessionId = sid <;> simp [h]

theorem expireSessionRow_id (sid : String) (now : Nat) (fs : Int)
    (x : SessionRow) :
    (expireSessionRow sid now fs x).sessionId = x.sessionId := by
  unfold expireSessionRow
  by_cases h : x.sessionId = sid <;> simp [h]

theorem expireSessionRow_deactivates (sid : String) (now : Nat) (fs : Int)
    (x : SessionRow) :
    expireSessionRow sid now fs x = x ∨
      (expireSessionRow sid now fs x).status ≠ Status.active := by
  unfold expireSessionRow
  by_cases h : x.sessionId = sid <;> simp [h]

/-- The release handler either leaves the sessions table unchanged or
applies the terminal `completed` update to it. -/
theorem release_sessions_shape (st : BrokerState) (sid : String)
    (sv : Option String) (now : Nat) (r : ScoreReply) (snapOk : Bool)
    (sd : SnapData) (saveOk : Bool) :
    (release_session st sid sv now r snapOk sd saveOk).1.sessions = st.sessions ∨
    ∃ fs svn, (release_session st sid sv now r snapOk sd saveOk).1.sessions =
      st.sessions.map (completeSessionRow sid now fs svn) := by
  unfold release_session
  split
  · exact Or.inl rfl
  · split
    · split
      · exact Or.inr ⟨_, _, rfl⟩
      · split
        · exact Or.inr ⟨_, _, rfl⟩
        · exact Or.inl rfl
    · split
      · exact Or.inr ⟨_, _, rfl⟩
      · split
        · exact Or.inr ⟨_, _, rfl⟩
        · exact Or.inl rfl

theorem release_preserves_sessionsOK (st : BrokerState) (sid : String)
    (sv : Option String) (now : Nat) (r : ScoreReply) (snapOk : Bool)
    (sd : SnapData) (saveOk : Bool) (h : SessionsOK st.sessions) :
    SessionsOK (release_session st sid sv now r snapOk sd saveOk).1.sessions := by
  rcases release_sessions_shape st sid sv now r snapOk sd saveOk with hs | ⟨fs, svn, hs⟩
  · rw [hs]; exact h
  · rw [hs]
    exact sessionsOK_map _ (completeSessionRow_id _ _ _ _)
      (completeSessionRow_deactivates _ _ _ _) h

/-- The sweeper's per-session transition either leaves the sessions
table unchanged or applies the terminal `expired` update to it. -/
theorem expire_one_sessions_shape (st : BrokerState) (sid username : String)
    (slot : Nat) (now : Nat) (r : ScoreReply) (saveOk : Bool) :
    (expire_one st sid username slot now r saveOk).sessions = st.sessions ∨
    ∃ fs, (expire_one st sid username slot now r saveOk).sessions =
      st.sessions.map (expireSessionRow sid now fs) := by
  unfold expire_one
  split
  · exact Or.inl rfl
  · split
    · exact Or.inr ⟨_, rfl⟩
    · exact Or.inr ⟨_, rfl⟩

theorem expire_one_preserves_sessionsOK (st : BrokerState)
    (sid username : String) (slot : Nat) (now : Nat) (r : ScoreReply)
    (saveOk : Bool) (h : SessionsOK st.sessions) :
    SessionsOK (expire_one st sid username slot now r saveOk).sessions := by
  rcases expire_one_sessions_shape st sid username slot now r saveOk with hs | ⟨fs, hs⟩
  · rw [hs]; exact h
  · rw [hs]
    exact sessionsOK_map _ (expireSessionRow_id _ _ _)
      (expireSessionRow_deactivates _ _ _) h

theorem foldl_preserves_sessionsOK {β : Type} (step : BrokerState → β → BrokerState)
    (hstep : ∀ st b, SessionsOK st.sessions → SessionsOK (step st b).sessions) :
    ∀ (l : List β) (st : BrokerState), SessionsOK st.sessions →
      SessionsOK (l.foldl step st).sessions := by
  intro l
  induction l with
  | nil => intro st h; exact h
  | cons b bs ih => intro st h; exact ih (step st b) (hstep st b h)

theorem sweep_preserves_sessionsOK (st : BrokerState) (now : Nat)
    (orc : String → ScoreReply) (saveOrc : String → Bool)
    (h : SessionsOK st.sessions) :
    SessionsOK (session_timeout_tick st now orc saveOrc).sessions := by
  unfold session_timeout_tick
  exact foldl_preserves_sessionsOK _
    (fun acc s hs => expire_one_preserves_sessionsOK acc s.sessionId s.username
      s.slot now (orc s.sessionId) (saveOrc s.sessionId) hs) _ st h

theorem broadcast_fst (m : List (String × List Nat)) (sid : String)
    (rb : Nat → Bool) : (broadcast m sid rb).1 = m := by
  unfold broadcast
  split <;> rfl

theorem broadcast_snd (m : List (String × List Nat)) (sid : String)
    (rb : Nat → Bool) :
    (broadcast m sid rb).2 = (subscribersOf m sid).filter rb := by
  unfold broadcast subscribersOf
  cases hf : m.find? (fun e => decide (e.1 = sid)) <;> simp [hf]

theorem poll_step_fst (now : Nat) (orc : String → ScoreReply)
    (rb : Nat → Bool) (acc : BrokerState × List (String × Nat))
    (s : SessionRow) :
    (poll_step now orc rb acc s).1 =
      { acc.1 with scoreHistory := acc.1.scoreHistory ++
          [⟨s.username, s.sessionId, now,
            (sync_get_slot_score (orc s.sessionId)).score,
            (sync_get_slot_score (orc s.sessionId)).items⟩] } := by
  simp only [poll_step, broadcast_fst]

theorem poll_step_snd (now : Nat) (orc : String → ScoreReply)
    (rb : Nat → Bool) (acc : BrokerState × List (String × Nat))
    (s : SessionRow) :
    (poll_step now orc rb acc s).2 =
      acc.2 ++ ((subscribersOf acc.1.websockets s.sessionId).filter rb).map
        (fun w => (s.sessionId, w)) := by
  simp only [poll_step, broadcast_snd]

theorem poll_foldl_spec (now : Nat) (orc : String → ScoreReply)
    (rb : Nat → Bool) :
    ∀ (l : List SessionRow) (st : BrokerState) (acc : List (String × Nat)),
      (l.foldl (poll_step now orc rb) (st, acc)).1 =
        { st with scoreHistory := st.scoreHistory ++ l.map (fun s =>
            ⟨s.username, s.sessionId, now,
             (sync_get_slot_score (orc s.sessionId)).score,
             (sync_get_slot_score (orc s.sessionId)).items⟩) } ∧
      (l.foldl (poll_step now orc rb) (st, acc)).2 =
        acc ++ (l.map (fun s =>
          ((subscribersOf st.websockets s.sessionId).filter rb).map
            (fun w => (s.sessionId, w)))).flatten := by
  intro l
  induction l with
  | nil => intro st acc; simp
  | cons x xs ih =>
    intro st acc
    rw [List.foldl_cons]
    have hstep : poll_step now orc rb (st, acc) x =
        ({ st with scoreHistory := st.scoreHistory ++
            [⟨x.username, x.sessionId, now,
              (sync_get_slot_score (orc x.sessionId)).score,
              (sync_get_slot_score (orc x.sessionId)).items⟩] },
         acc ++ ((subscribersOf st.websockets x.sessionId).filter rb).map
           (fun w => (x.sessionId, w))) := by
      have h1 := poll_step_fst now orc rb (st, acc) x
      have h2 := poll_step_snd now orc rb (st, acc) x
      exact Prod.ext h1 h2
    rw [hstep]
    rcases ih ({ st with scoreHistory := st.scoreHistory ++
        [⟨x.username, x.sessionId, now,
          (sync_get_slot_score (orc x.sessionId)).score,
          (sync_get_slot_score (orc x.sessionId)).items⟩] })
      (acc ++ ((subscribersOf st.websockets x.sessionId).filter rb).map
        (fun w => (x.sessionId, w))) with ⟨ha, hb⟩
    constructor
    · rw [ha]
      simp
    · rw [hb]
      simp

/-- The claim handler either leaves the sessions table unchanged or —
when the duplicate-user check, the slot scan, the lock, and the id
uniqueness check all passed — appends exactly the new active row. -/
theorem claim_sessions_shape (st : BrokerState) (u : String)
    (sv : Option String) (sid : String) (now : Nat) (ex : Bool) :
    (claim_session st u sv sid now ex).1.sessions = st.sessions ∨
    (∃ slot,
      get_free_slot st = some slot ∧
      st.sessions.find?
        (fun s => decide (s.username = pyLower u ∧ s.status = Status.active)) = none ∧
      st.sessions.any (fun s => decide (s.sessionId = sid)) = false ∧
      (claim_session st u sv sid now ex).1.sessions =
        st.sessions ++ [⟨sid, pyLower u, slot, now, none, none, Status.active, sv, none⟩]) := by
  simp only [claim_session]
  cases hfu : st.sessions.find?
      (fun s => decide (s.username = pyLower u ∧ s.status = Status.active)) with
  | some s =>
    exact Or.inl rfl
  | none =>
    dsimp only
    cases hgs : get_free_slot st with
    | none =>
      exact Or.inl rfl
    | some slot =>
      dsimp only
      by_cases hlk : (st.locks.any fun l => decide (l.1 = slot)) = true
      · rw [if_pos hlk]
        exact Or.inl rfl
      · rw [if_neg hlk]
        by_cases hpk : (st.sessions.any fun s => decide (s.sessionId = sid)) = true
        · rw [if_pos hpk]
          exact Or.inl rfl
        · rw [if_neg hpk]
          have hpk' : st.sessions.any (fun s => decide (s.sessionId = sid)) = false := by
            simpa using hpk
          have hall : ∀ s ∈ st.sessions, s.sessionId ≠ sid := by
            intro s hs
            have := List.any_eq_false.mp hpk' s hs
            simpa using this
          have hroll : List.filter (fun s => decide (s.sessionId ≠ sid))
              (st.sessions ++
                [⟨sid, pyLower u, slot, now, none, none, Status.active, sv, none⟩]) =
              st.sessions := by
            rw [List.filter_append]
            have h1 : (([⟨sid, pyLower u, slot, now, none, none, Status.active, sv, none⟩] :
                List SessionRow)).filter (fun s => decide (s.sessionId ≠ sid)) = [] := by
              simp
            rw [h1, List.append_nil]
            refine List.filter_eq_self.mpr ?_
            intro s hs
            simpa using hall s hs
          cases sv with
          | none => exact Or.inr ⟨slot, rfl, rfl, hpk', rfl⟩
          | some nm =>
            cases ex with
            | true => exact Or.inr ⟨slot, rfl, rfl, hpk', rfl⟩
            | false => exact Or.inl hroll

theorem claim_preserves_sessionsOK (st : BrokerState) (u : String)
    (sv : Option String) (sid : String) (now : Nat) (ex : Bool)
    (h : SessionsOK st.sessions) :
    SessionsOK (claim_session st u sv sid now ex).1.sessions := by
  rcases claim_sessions_shape st u sv sid now ex with hs | ⟨slot, hgs, hfu, hpk, hs⟩
  · rw [hs]; exact h
  · rw [hs]
    have hfree : slot ∉ activeSlots st := by
      have := (range_find?_some hgs).1
      simpa using this
    refine sessionsOK_append h ?_ ?_ ?_
    · intro s hs'
      have := List.any_eq_false.mp hpk s hs'
      simpa using this
    · intro s hs' hact hcontra
      exact hfree (List.mem_map.mpr
        ⟨s, List.mem_filter.mpr ⟨hs', decide_eq_true hact⟩, hcontra⟩)
    · intro s hs' hact hcontra
      have := List.find?_eq_none.mp hfu s hs'
      simp only [decide_eq_true_eq] at this
      exact this ⟨hcontra, hact⟩

theorem subscribe_sessions (st : BrokerState) (sid : String) (w : Nat) :
    (session_stream_subscribe st sid w).sessions = st.sessions := by
  unfold session_stream_subscribe
  split
  · rfl
  · split
    · split <;> rfl
    · rfl

theorem unsubscribe_sessions (st : BrokerState) (sid : String) (w : Nat) :
    (session_stream_unsubscribe st sid w).sessions = st.sessions := by
  unfold session_stream_unsubscribe
  split <;> rfl

theorem poll_sessions (st : BrokerState) (now : Nat)
    (orc : String → ScoreReply) (rb : Nat → Bool) :
    (score_poll_tick st now orc rb).1.sessions = st.sessions := by
  unfold score_poll_tick
  rw [(poll_foldl_spec now orc rb (activeSessions st) st []).1]

/-- Every reachable broker state satisfies the active-session uniqueness
invariant. -/
theorem reach_sessionsOK : ∀ st : BrokerState, Reach st → SessionsOK st.sessions := by
  intro st h
  induction h with
  | init => exact ⟨List.Pairwise.nil, by simp [initialState], by simp [initialState]⟩
  | claim st u sv sid now ex _ ih => exact claim_preserves_sessionsOK st u sv sid now ex ih
  | release st sid sv now r snapOk sd saveOk _ ih =>
    exact release_preserves_sessionsOK st sid sv now r snapOk sd saveOk ih
  | sweep st now orc saveOrc _ ih => exact sweep_preserves_sessionsOK st now orc saveOrc ih
  | poll st now orc rb _ ih => rw [poll_sessions]; exact ih
  | sub st sid w _ ih => rw [subscribe_sessions]; exact ih
  | unsub st sid w _ ih => rw [unsubscribe_sessions]; exact ih

/-- A user that already owns an active session is rejected with 409. -/
theorem claim_conflict_of_active (st : BrokerState) (u : String)
    (sv : Option String) (sid : String) (now : Nat) (ex : Bool)
    (h : ∃ s ∈ st.sessions, s.username = pyLower u ∧ s.status = Status.active) :
    (claim_session st u sv sid now ex).2 = .error .conflict := by
  simp only [claim_session]
  cases hf : st.sessions.find?
      (fun s => decide (s.username = pyLower u ∧ s.status = Status.active)) with
  | some s => rfl
  | none =>
    exfalso
    rcases h with ⟨s, hs, h1, h2⟩
    have := List.find?_eq_none.mp hf s hs
    simp [h1, h2] at this

/-! ### Helper facts about the terminal session update -/

theorem completed_row_mem {l : List SessionRow} {sess : SessionRow}
    (hmem : sess ∈ l) {sid : String} (hsid : sess.sessionId = sid)
    (now : Nat) (fs : Int) (sv : Option String) :
    { sess with
      status := Status.completed, endedAt := some now,
      finalScore := some fs, saveCreated := sv } ∈
      l.map (completeSessionRow sid now fs sv) := by
  have heq : completeSessionRow sid now fs sv sess =
      { sess with
        status := Status.completed, endedAt := some now,
        finalScore := some fs, saveCreated := sv } := by
    simp [completeSessionRow, hsid]
  rw [← heq]
  exact List.mem_map_of_mem _ hmem

theorem completed_filter_nil (l : List SessionRow) (sid : String)
    (now : Nat) (fs : Int) (sv : Option String) :
    (l.map (completeSessionRow sid now fs sv)).filter
      (fun s => decide (s.sessionId = sid ∧ s.status = Status.active)) = [] := by
  refine List.filter_eq_nil_iff.mpr ?_
  intro x hx
  rcases List.mem_map.mp hx with ⟨y, _, rfl⟩
  by_cases h : y.sessionId = sid <;> simp [completeSessionRow, h]

theorem lock_filter_not_mem (locks : List (Nat × String)) (slot : Nat)
    (x : String) :
    (slot, x) ∉ locks.filter (fun l => decide (l.1 ≠ slot)) := by
  intro hmem
  rcases List.mem_filter.mp hmem with ⟨_, hd⟩
  simp at hd

/-! ### Claim theorems -/

/-- C8: releasing a session id that does not exist or whose row is
already terminal yields `NotFound` and leaves the whole state
unchanged — never a silent success, never a second transition. -/
theorem c8_release_unknown_or_terminal (st : BrokerState) (sid : String)
    (sv : Option String) (now : Nat) (r : ScoreReply) (snapOk : Bool)
    (sd : SnapData) (saveOk : Bool)
    (h : ∀ s ∈ st.sessions, ¬(s.sessionId = sid ∧ s.status = Status.active)) :
    release_session st sid sv now r snapOk sd saveOk = (st, .error .notFound) := by
  unfold release_session
  have hf : st.sessions.find?
      (fun s => decide (s.sessionId = sid ∧ s.status = Status.active)) = none :=
    List.find?_eq_none.mpr (by intro x hx; simpa using h x hx)
  rw [hf]

/-- C8 witness: a concrete release of an already-completed session. -/
theorem c8_witness :
    release_session
      ⟨[⟨"alice", 3, 60⟩],
       [⟨"s1", "alice", 0, 5, some 9, some 3, Status.completed, none, none⟩],
       [], [], [], [], []⟩
      "s1" none 100 (ScoreReply.exn "down") true ⟨"r", "p", "i", "f"⟩ true =
    (⟨[⟨"alice", 3, 60⟩],
      [⟨"s1", "alice", 0, 5, some 9, some 3, Status.completed, none, none⟩],
      [], [], [], [], []⟩, .error .notFound) :=
  c8_release_unknown_or_terminal _ "s1" none 100 (ScoreReply.exn "down") true
    ⟨"r", "p", "i", "f"⟩ true (by decide)

/-- C9: the claim's candidate slot is the smallest slot in
`[0, TOTAL_SLOTS)` not referenced by an active session, and when every
slot is referenced the allocator reports no free slot. -/
theorem c9_first_free_slot (st : BrokerState) :
    (∀ s, get_free_slot st = some s →
      s < TOTAL_SLOTS ∧ s ∉ activeSlots st ∧ ∀ t, t < s → t ∈ activeSlots st) ∧
    ((∀ t, t < TOTAL_SLOTS → t ∈ activeSlots st) → get_free_slot st = none) := by
  constructor
  · intro s h
    rcases range_find?_some h with ⟨hp, hlt, hmin⟩
    refine ⟨hlt, by simpa using hp, ?_⟩
    intro t ht
    have := hmin t ht
    simpa using this
  · intro h
    apply range_find?_none
    intro t ht
    simp [h t ht]

/-- C9 witness: with slots 0 and 1 active, the candidate is slot 2; with
all 20 slots active, there is no free slot. -/
theorem c9_witness :
    (2 < TOTAL_SLOTS ∧
      2 ∉ activeSlots ⟨[],
        [⟨"a", "u1", 0, 0, none, none, Status.active, none, none⟩,
         ⟨"b", "u2", 1, 0, none, none, Status.active, none, none⟩],
        [], [], [], [], []⟩ ∧
      ∀ t, t < 2 → t ∈ activeSlots ⟨[],
        [⟨"a", "u1", 0, 0, none, none, Status.active, none, none⟩,
         ⟨"b", "u2", 1, 0, none, none, Status.active, none, none⟩],
        [], [], [], [], []⟩) ∧
    get_free_slot ⟨[],
      (List.range 20).map (fun i =>
        ⟨toString i, "u", i, 0, none, none, Status.active, none, none⟩),
      [], [], [], [], []⟩ = none :=
  ⟨(c9_first_free_slot _).1 2 (by decide), (c9_first_free_slot _).2 (by decide)⟩

/-- C5: on every ScoreCollector tick, every active session gets exactly
one appended ScoreSample whose score is whatever its own RCON outcome
parsed to — an exception parses to score 0 — and the tick's deliveries
cover every active session independently of any session's RCON outcome;
the sessions table and the subscriber map are untouched. -/
theorem c5_poll_tick_samples (st : BrokerState) (now : Nat)
    (orc : String → ScoreReply) (rb : Nat → Bool) :
    (score_poll_tick st now orc rb).1.scoreHistory =
      st.scoreHistory ++ (activeSessions st).map (fun s =>
        ⟨s.username, s.sessionId, now,
         (sync_get_slot_score (orc s.sessionId)).score,
         (sync_get_slot_score (orc s.sessionId)).items⟩) ∧
    (∀ msg, (sync_get_slot_score (ScoreReply.exn msg)).score = 0) ∧
    (score_poll_tick st now orc rb).1.sessions = st.sessions ∧
    (score_poll_tick st now orc rb).1.websockets = st.websockets ∧
    (score_poll_tick st now orc rb).2 =
      ((activeSessions st).map (fun s =>
        ((subscribersOf st.websockets s.sessionId).filter rb).map
          (fun w => (s.sessionId, w)))).flatten := by
  have h := poll_foldl_spec now orc rb (activeSessions st) st []
  refine ⟨?_, ?_, ?_, ?_, ?_⟩
  · show (score_poll_tick st now orc rb).1.scoreHistory = _
    unfold score_poll_tick
    rw [h.1]
  · intro msg
    rfl
  · exact poll_sessions st now orc rb
  · unfold score_poll_tick
    rw [h.1]
  · unfold score_poll_tick
    rw [h.2]
    simp

/-- C7 counterexample: publishing to a session with one unreachable
subscriber does not remove it from the subscriber set — contradicting
the claim that a failed delivery drops the observer. -/
theorem c7_counterexample :
    (fun _ => false : Nat → Bool) 7 = false ∧
    7 ∈ subscribersOf (broadcast [("s", [7])] "s" (fun _ => false)).1 "s" ∧
    (broadcast [("s", [7])] "s" (fun _ => false)).2 = [] := by
  decide

/-- C7 (amended): a publish delivers to exactly the reachable
subscribers, swallows every failed send (it never raises and an
unreachable observer simply gets nothing), and leaves the subscriber map
unchanged — the unreachable observer is NOT removed by publish itself;
removal happens in the stream handler's disconnect cleanup or when the
session is released. -/
theorem c7_amended_publish_semantics (m : List (String × List Nat))
    (sid : String) (rb : Nat → Bool) :
    (broadcast m sid rb).1 = m ∧
    (broadcast m sid rb).2 = (subscribersOf m sid).filter rb ∧
    ∀ w, rb w = false → w ∉ (broadcast m sid rb).2 := by
  refine ⟨broadcast_fst m sid rb, broadcast_snd m sid rb, ?_⟩
  intro w hw hmem
  rw [broadcast_snd] at hmem
  rcases List.mem_filter.mp hmem with ⟨_, hrb⟩
  rw [hw] at hrb
  exact Bool.noConfusion hrb

/-- C7 witness: concrete publish with one unreachable subscriber. -/
theorem c7_witness :
    (broadcast [("s2", [4])] "s2" (fun _ => false)).1 = [("s2", [4])] ∧
    (broadcast [("s2", [4])] "s2" (fun _ => false)).2 =
      (subscribersOf [("s2", [4])] "s2").filter (fun _ => false) ∧
    4 ∉ (broadcast [("s2", [4])] "s2" (fun _ => false)).2 := by
  have h := c7_amended_publish_semantics [("s2", [4])] "s2" (fun _ => false)
  exact ⟨h.1, h.2.1, h.2.2 4 rfl⟩

/-- C10: the entities query caps the returned records at 200 (each
reduced to name/position/direction) while `total` reports the full
count, and every degenerate reply (exception, empty, error-marked,
unparsable) yields an empty list with total 0 instead of raising; for an
active session the endpoint serves exactly this result. -/
theorem c10_entities_query (r : EntitiesReply) :
    (sync_get_entities_list r).entities.length ≤ 200 ∧
    (∀ raw d, r = .resp raw (some d) → raw ≠ "" → containsError raw = false →
      (sync_get_entities_list r).total = d.entities.length ∧
      (sync_get_entities_list r).entities = (d.entities.take 200).map cleanEntity ∧
      (sync_get_entities_list r).errMsg = none) ∧
    (∀ msg, r = .exn msg → sync_get_entities_list r = ⟨[], 0, some msg⟩) ∧
    (∀ raw p, r = .resp raw p → (raw = "" ∨ containsError raw = true) →
      sync_get_entities_list r = ⟨[], 0, none⟩) ∧
    (∀ raw, r = .resp raw none → raw ≠ "" → containsError raw = false →
      sync_get_entities_list r = ⟨[], 0, some "Parse error"⟩) ∧
    (∀ (st : BrokerState) (sid : String) (sess : SessionRow),
      st.sessions.find? (fun s => decide (s.sessionId = sid)) = some sess →
      sess.status = Status.active →
      get_session_entities st sid r = .ok (sync_get_entities_list r)) := by
  refine ⟨?_, ?_, ?_, ?_, ?_, ?_⟩
  · unfold sync_get_entities_list
    cases r with
    | exn msg => simp
    | resp raw p =>
      dsimp only
      by_cases hc : raw = "" ∨ containsError raw = true
      · rw [if_pos hc]
        simp
      · rw [if_neg hc]
        cases p with
        | none => simp
        | some d =>
          simp only [List.length_map, List.length_take]
          exact Nat.min_le_left _ _
  · intro raw d hr hne herr
    subst hr
    unfold sync_get_entities_list
    dsimp only
    rw [if_neg (by simp [hne, herr])]
    exact ⟨rfl, rfl, rfl⟩
  · intro msg hr
    subst hr
    rfl
  · intro raw p hr hc
    subst hr
    unfold sync_get_entities_list
    dsimp only
    rw [if_pos hc]
  · intro raw hr hne herr
    subst hr
    unfold sync_get_entities_list
    dsimp only
    rw [if_neg (by simp [hne, herr])]
  · intro st sid sess hf hact
    unfold get_session_entities
    rw [hf]
    dsimp only
    rw [if_pos hact]

/-- C10 witness: a parsed reply with two raw entities through the live
endpoint of an active session. -/
theorem c10_witness :
    (sync_get_entities_list (EntitiesReply.resp "x"
      (some ⟨[⟨some "\"belt\"", some "(1,2)", some 4⟩, ⟨none, none, none⟩]⟩))).total = 2 ∧
    (sync_get_entities_list (EntitiesReply.resp "x"
      (some ⟨[⟨some "\"belt\"", some "(1,2)", some 4⟩, ⟨none, none, none⟩]⟩))).entities =
      (([⟨some "\"belt\"", some "(1,2)", some 4⟩, ⟨none, none, none⟩] :
        List RawEntity).take 200).map cleanEntity ∧
    (sync_get_entities_list (EntitiesReply.resp "x"
      (some ⟨[⟨some "\"belt\"", some "(1,2)", some 4⟩, ⟨none, none, none⟩]⟩))).errMsg = none ∧
    get_session_entities
      ⟨[], [⟨"s1", "alice", 0, 0, none, none, Status.active, none, none⟩],
       [], [], [], [], []⟩ "s1"
      (EntitiesReply.resp "x"
        (some ⟨[⟨some "\"belt\"", some "(1,2)", some 4⟩, ⟨none, none, none⟩]⟩)) =
      .ok (sync_get_entities_list (EntitiesReply.resp "x"
        (some ⟨[⟨some "\"belt\"", some "(1,2)", some 4⟩, ⟨none, none, none⟩]⟩))) := by
  have h := c10_entities_query (EntitiesReply.resp "x"
    (some ⟨[⟨some "\"belt\"", some "(1,2)", some 4⟩, ⟨none, none, none⟩]⟩))
  have h2 := h.2.1 "x" ⟨[⟨some "\"belt\"", some "(1,2)", some 4⟩, ⟨none, none, none⟩]⟩
    rfl (by decide) (by decide)
  refine ⟨h2.1, h2.2.1, h2.2.2, ?_⟩
  exact h.2.2.2.2.2 _ "s1" ⟨"s1", "alice", 0, 0, none, none, Status.active, none, none⟩
    (by decide) rfl

/-- C3: every broker state reachable from the empty store through
claims, releases, sweeper ticks, poll ticks and subscriber churn has at
most one active session per slot and at most one active session per
user (together with globally distinct session ids), and a claim by a
user who already owns an active session is rejected with `Conflict`. -/
theorem c3_active_session_uniqueness :
    (∀ st : BrokerState, Reach st → SessionsOK st.sessions) ∧
    (∀ (st : BrokerState) (u : String) (sv : Option String) (sid : String)
       (now : Nat) (ex : Bool),
      (∃ s ∈ st.sessions, s.username = pyLower u ∧ s.status = Status.active) →
      (claim_session st u sv sid now ex).2 = .error .conflict) :=
  ⟨reach_sessionsOK, claim_conflict_of_active⟩

/-- C3 witness: the invariant at the initial state, and a concrete
rejected duplicate claim. -/
theorem c3_witness :
    SessionsOK initialState.sessions ∧
    (claim_session
      ⟨[⟨"bob", 0, 0⟩],
       [⟨"s7", "bob", 3, 0, none, none, Status.active, none, none⟩],
       [], [], [], [(3, "bob")], []⟩
      "bob" none "s8" 50 true).2 = .error .conflict :=
  ⟨c3_active_session_uniqueness.1 initialState Reach.init,
   c3_active_session_uniqueness.2 _ "bob" none "s8" 50 true (by decide)⟩

/-- C4: a claim naming a save that does not exist is rolled back
entirely — the handler deletes the just-created session row, releases
the slot lock, and returns `NotFound`; only the idempotent user-row
insert survives, so no orphaned active session and no held lock
remain. -/
theorem c4_claim_missing_save_rollback (st : BrokerState) (u : String)
    (nm : String) (sid : String) (now : Nat) (slot : Nat)
    (hfu : st.sessions.find?
      (fun s => decide (s.username = pyLower u ∧ s.status = Status.active)) = none)
    (hgs : get_free_slot st = some slot)
    (hlk : st.locks.any (fun l => decide (l.1 = slot)) = false)
    (hpk : st.sessions.any (fun s => decide (s.sessionId = sid)) = false) :
    (claim_session st u (some nm) sid now false).2 = .error .notFound ∧
    (claim_session st u (some nm) sid now false).1.sessions = st.sessions ∧
    (claim_session st u (some nm) sid now false).1.locks = st.locks ∧
    (claim_session st u (some nm) sid now false).1.users =
      ensureUser st.users (pyLower u) ∧
    (claim_session st u (some nm) sid now false).1.saves = st.saves ∧
    (claim_session st u (some nm) sid now false).1.snapshots = st.snapshots ∧
    (claim_session st u (some nm) sid now false).1.scoreHistory = st.scoreHistory ∧
    (claim_session st u (some nm) sid now false).1.websockets = st.websockets := by
  have hlk' : ¬((st.locks.any fun l => decide (l.1 = slot)) = true) := by
    rw [hlk]; simp
  have hpk' : ¬((st.sessions.any fun s => decide (s.sessionId = sid)) = true) := by
    rw [hpk]; simp
  have hall : ∀ s ∈ st.sessions, s.sessionId ≠ sid := by
    intro s hs
    have := List.any_eq_false.mp hpk s hs
    simpa using this
  have hsessions : List.filter (fun s => decide (s.sessionId ≠ sid))
      (st.sessions ++
        [⟨sid, pyLower u, slot, now, none, none, Status.active, some nm, none⟩]) =
      st.sessions := by
    rw [List.filter_append]
    have h1 : (([⟨sid, pyLower u, slot, now, none, none, Status.active, some nm, none⟩] :
        List SessionRow)).filter (fun s => decide (s.sessionId ≠ sid)) = [] := by
      simp
    rw [h1, List.append_nil]
    refine List.filter_eq_self.mpr ?_
    intro s hs
    simpa using hall s hs
  have hlocks : (st.locks ++ [(slot, pyLower u)]).filter
      (fun l => decide (l.1 ≠ slot)) = st.locks := by
    rw [List.filter_append]
    have h1 : (([(slot, pyLower u)] : List (Nat × String))).filter
        (fun l => decide (l.1 ≠ slot)) = [] := by
      simp
    rw [h1, List.append_nil]
    refine List.filter_eq_self.mpr ?_
    intro l hl
    have := List.any_eq_false.mp hlk l hl
    simpa using this
  simp only [claim_session]
  rw [hfu, hgs]
  dsimp only
  rw [if_neg hlk', if_neg hpk']
  exact ⟨rfl, hsessions, hlocks, rfl, rfl, rfl, rfl, rfl⟩

/-- C4 witness: claiming a missing save from the empty store. -/
theorem c4_witness :
    (claim_session initialState "alice" (some "nosuch") "sid1" 0 false).2 =
      .error .notFound ∧
    (claim_session initialState "alice" (some "nosuch") "sid1" 0 false).1.sessions =
      initialState.sessions ∧
    (claim_session initialState "alice" (some "nosuch") "sid1" 0 false).1.locks =
      initialState.locks ∧
    (claim_session initialState "alice" (some "nosuch") "sid1" 0 false).1.users =
      ensureUser initialState.users (pyLower "alice") ∧
    (claim_session initialState "alice" (some "nosuch") "sid1" 0 false).1.saves =
      initialState.saves ∧
    (claim_session initialState "alice" (some "nosuch") "sid1" 0 false).1.snapshots =
      initialState.snapshots ∧
    (claim_session initialState "alice" (some "nosuch") "sid1" 0 false).1.scoreHistory =
      initialState.scoreHistory ∧
    (claim_session initialState "alice" (some "nosuch") "sid1" 0 false).1.websockets =
      initialState.websockets :=
  c4_claim_missing_save_rollback initialState "alice" "nosuch" "sid1" 0 0
    (by decide) (by decide) (by decide) (by decide)

/-- C1 counterexample: a sweep that expires a timed-out session writes
no snapshot row for it and leaves its subscribers registered — the
expiry transition does not perform these two side effects of the
`completed` transition. -/
theorem c1_counterexample :
    (∃ s ∈ (session_timeout_tick
        ⟨[⟨"alice", 0, 0⟩],
         [⟨"s1", "alice", 0, 0, none, none, Status.active, none, none⟩],
         [], [], [], [(0, "alice")], [("s1", [3])]⟩
        8000 (fun _ => ScoreReply.exn "down") (fun _ => true)).sessions,
      s.sessionId = "s1" ∧ s.status = Status.expired) ∧
    (¬ ∃ snap ∈ (session_timeout_tick
        ⟨[⟨"alice", 0, 0⟩],
         [⟨"s1", "alice", 0, 0, none, none, Status.active, none, none⟩],
         [], [], [], [(0, "alice")], [("s1", [3])]⟩
        8000 (fun _ => ScoreReply.exn "down") (fun _ => true)).snapshots,
      snap.sessionId = "s1") ∧
    "s1" ∈ (session_timeout_tick
        ⟨[⟨"alice", 0, 0⟩],
         [⟨"s1", "alice", 0, 0, none, none, Status.active, none, none⟩],
         [], [], [], [(0, "alice")], [("s1", [3])]⟩
        8000 (fun _ => ScoreReply.exn "down") (fun _ => true)).websockets.map
      Prod.fst := by
  decide

/-- C1 (amended): the expiry transition reads the score (failure
degrades to 0), marks the session `expired` with its end time and final
score, attempts the autosave upsert under the timestamp-synthesized
name (skipped if the save write fails), updates the user aggregates,
and releases the slot lock — but unlike the `completed` transition it
captures no Snapshot row and does not drop the session's live
subscribers (and it leaves `save_created` unset). -/
theorem c1_amended_expiry_effects (st : BrokerState) (sid uname : String)
    (slot : Nat) (now : Nat) (r : ScoreReply) (saveOk : Bool)
    (sess : SessionRow)
    (hfind : st.sessions.find? (fun s => decide (s.sessionId = sid)) = some sess) :
    (expire_one st sid uname slot now r saveOk).snapshots = st.snapshots ∧
    (expire_one st sid uname slot now r saveOk).websockets = st.websockets ∧
    (expire_one st sid uname slot now r saveOk).sessions.find?
        (fun s => decide (s.sessionId = sid)) =
      some { sess with
             status := Status.expired, endedAt := some now,
             finalScore := some ((sync_get_slot_score r).score) } ∧
    (∀ x, (slot, x) ∉ (expire_one st sid uname slot now r saveOk).locks) ∧
    (expire_one st sid uname slot now r saveOk).users =
      updateUserStats st.users uname ((sync_get_slot_score r).score)
        ((now : Int) - (sess.startedAt : Int)) ∧
    (expire_one st sid uname slot now r saveOk).saves =
      (if saveOk then
        upsertSaveAutosave st.saves uname (autosaveName now)
          (savePath uname (autosaveName now)) ((sync_get_slot_score r).score)
          ((now : Int) - (sess.startedAt : Int)) now
       else st.saves) := by
  have hsid : sess.sessionId = sid := by simpa using List.find?_some hfind
  have hp : ∀ x : SessionRow,
      (fun s => decide (s.sessionId = sid))
        (expireSessionRow sid now ((sync_get_slot_score r).score) x) =
      (fun s => decide (s.sessionId = sid)) x := by
    intro x
    simp [expireSessionRow_id]
  unfold expire_one
  rw [hfind]
  dsimp only
  cases saveOk with
  | true =>
    rw [if_pos rfl]
    refine ⟨rfl, rfl, ?_, ?_, rfl, rfl⟩
    · rw [find?_map_pres hp, hfind]
      simp [expireSessionRow, hsid]
    · intro x
      exact lock_filter_not_mem _ slot x
  | false =>
    rw [if_neg Bool.false_ne_true]
    refine ⟨rfl, rfl, ?_, ?_, rfl, rfl⟩
    · rw [find?_map_pres hp, hfind]
      simp [expireSessionRow, hsid]
    · intro x
      exact lock_filter_not_mem _ slot x

/-- C1 witness: the amended effects at a concrete expiring session. -/
theorem c1_witness :
    (expire_one
        ⟨[⟨"erin", 0, 0⟩],
         [⟨"s9", "erin", 4, 100, none, none, Status.active, none, none⟩],
         [], [], [], [(4, "erin")], [("s9", [8])]⟩
        "s9" "erin" 4 9000 (ScoreReply.resp "x" (some 42) none) true).snapshots = [] ∧
    (expire_one
        ⟨[⟨"erin", 0, 0⟩],
         [⟨"s9", "erin", 4, 100, none, none, Status.active, none, none⟩],
         [], [], [], [(4, "erin")], [("s9", [8])]⟩
        "s9" "erin" 4 9000 (ScoreReply.resp "x" (some 42) none) true).websockets =
      [("s9", [8])] ∧
    (expire_one
        ⟨[⟨"erin", 0, 0⟩],
         [⟨"s9", "erin", 4, 100, none, none, Status.active, none, none⟩],
         [], [], [], [(4, "erin")], [("s9", [8])]⟩
        "s9" "erin" 4 9000 (ScoreReply.resp "x" (some 42) none) true).sessions.find?
        (fun s => decide (s.sessionId = "s9")) =
      some ⟨"s9", "erin", 4, 100, some 9000, some 42, Status.expired, none, none⟩ ∧
    (∀ x, (4, x) ∉ (expire_one
        ⟨[⟨"erin", 0, 0⟩],
         [⟨"s9", "erin", 4, 100, none, none, Status.active, none, none⟩],
         [], [], [], [(4, "erin")], [("s9", [8])]⟩
        "s9" "erin" 4 9000 (ScoreReply.resp "x" (some 42) none) true).locks) ∧
    (expire_one
        ⟨[⟨"erin", 0, 0⟩],
         [⟨"s9", "erin", 4, 100, none, none, Status.active, none, none⟩],
         [], [], [], [(4, "erin")], [("s9", [8])]⟩
        "s9" "erin" 4 9000 (ScoreReply.resp "x" (some 42) none) true).users =
      updateUserStats [⟨"erin", 0, 0⟩] "erin" 42 ((9000 : Int) - (100 : Int)) ∧
    (expire_one
        ⟨[⟨"erin", 0, 0⟩],
         [⟨"s9", "erin", 4, 100, none, none, Status.active, none, none⟩],
         [], [], [], [(4, "erin")], [("s9", [8])]⟩
        "s9" "erin" 4 9000 (ScoreReply.resp "x" (some 42) none) true).saves =
      upsertSaveAutosave [] "erin" (autosaveName 9000)
        (savePath "erin" (autosaveName 9000)) 42 ((9000 : Int) - (100 : Int)) 9000 := by
  have h := c1_amended_expiry_effects
    ⟨[⟨"erin", 0, 0⟩],
     [⟨"s9", "erin", 4, 100, none, none, Status.active, none, none⟩],
     [], [], [], [(4, "erin")], [("s9", [8])]⟩
    "s9" "erin" 4 9000 (ScoreReply.resp "x" (some 42) none) true
    ⟨"s9", "erin", 4, 100, none, none, Status.active, none, none⟩ (by decide)
  exact ⟨h.1, h.2.1, h.2.2.1, h.2.2.2.1, h.2.2.2.2.1, h.2.2.2.2.2⟩

/-- C2 counterexample: a failing save write during a manual release
aborts the transition — the handler surfaces a 500, the session row
stays `active`, and the slot lock stays held, contradicting the claim
that a save-write failure degrades and never blocks the transition. -/
theorem c2_counterexample :
    (release_session
        ⟨[⟨"bob", 0, 0⟩],
         [⟨"s2", "bob", 1, 0, none, none, Status.active, none, none⟩],
         [], [], [], [(1, "bob")], []⟩
        "s2" (some "sv") 100 (ScoreReply.resp "x" (some 5) none) true
        ⟨"r", "p", "i", "f"⟩ false).2 = .error (.internal "save failed") ∧
    (∃ s ∈ (release_session
        ⟨[⟨"bob", 0, 0⟩],
         [⟨"s2", "bob", 1, 0, none, none, Status.active, none, none⟩],
         [], [], [], [(1, "bob")], []⟩
        "s2" (some "sv") 100 (ScoreReply.resp "x" (some 5) none) true
        ⟨"r", "p", "i", "f"⟩ false).1.sessions,
      s.sessionId = "s2" ∧ s.status = Status.active) ∧
    (1, "bob") ∈ (release_session
        ⟨[⟨"bob", 0, 0⟩],
         [⟨"s2", "bob", 1, 0, none, none, Status.active, none, none⟩],
         [], [], [], [(1, "bob")], []⟩
        "s2" (some "sv") 100 (ScoreReply.resp "x" (some 5) none) true
        ⟨"r", "p", "i", "f"⟩ false).1.locks := by
  refine ⟨rfl, ?_, ?_⟩ <;> decide

/-- C2 (amended): inside the `completed` transition a score-read
failure degrades to score 0 and a snapshot-capture failure is swallowed
(for every score reply and snapshot outcome the transition completes
when no save is requested or the save write succeeds: the session row
becomes terminal and the slot lock is released) — but a failing save
write aborts the transition with a 500, leaving the session active and
the lock held. -/
theorem c2_amended_release_failure_modes (st : BrokerState) (sid : String)
    (sv : Option String) (now : Nat) (r : ScoreReply) (snapOk : Bool)
    (sd : SnapData) (saveOk : Bool) (sess : SessionRow)
    (hfind : st.sessions.find?
      (fun s => decide (s.sessionId = sid ∧ s.status = Status.active)) = some sess) :
    ((sv = none ∨ saveOk = true) →
      (∃ resp, (release_session st sid sv now r snapOk sd saveOk).2 = .ok resp) ∧
      { sess with
        status := Status.completed, endedAt := some now,
        finalScore := some ((sync_get_slot_score r).score), saveCreated := sv } ∈
        (release_session st sid sv now r snapOk sd saveOk).1.sessions ∧
      (release_session st sid sv now r snapOk sd saveOk).1.sessions.filter
        (fun s => decide (s.sessionId = sid ∧ s.status = Status.active)) = [] ∧
      (∀ x, (sess.slot, x) ∉ (release_session st sid sv now r snapOk sd saveOk).1.locks)) ∧
    (∀ nm, sv = some nm → saveOk = false →
      (release_session st sid sv now r snapOk sd saveOk).2 =
        .error (.internal "save failed") ∧
      (release_session st sid sv now r snapOk sd saveOk).1.sessions = st.sessions ∧
      (release_session st sid sv now r snapOk sd saveOk).1.locks = st.locks) := by
  have hconj : sess.sessionId = sid ∧ sess.status = Status.active := by
    simpa using List.find?_some hfind
  have hmem := List.mem_of_find?_eq_some hfind
  unfold release_session
  rw [hfind]
  dsimp only
  cases sv with
  | none =>
    refine ⟨fun _ => ?_, ?_⟩
    · cases snapOk <;>
        exact ⟨⟨_, rfl⟩,
          completed_row_mem hmem hconj.1 now _ none,
          completed_filter_nil _ sid now _ none,
          fun x => lock_filter_not_mem _ sess.slot x⟩
    · intro nm h1 _
      exact Option.noConfusion h1
  | some nm =>
    cases saveOk with
    | true =>
      refine ⟨fun _ => ?_, ?_⟩
      · cases snapOk <;>
          exact ⟨⟨_, rfl⟩,
            completed_row_mem hmem hconj.1 now _ (some nm),
            completed_filter_nil _ sid now _ (some nm),
            fun x => lock_filter_not_mem _ sess.slot x⟩
      · intro nm2 _ h2
        exact Bool.noConfusion h2
    | false =>
      refine ⟨fun hor => ?_, ?_⟩
      · rcases hor with h | h
        · exact Option.noConfusion h
        · exact Bool.noConfusion h
      · intro nm2 _ _
        cases snapOk <;> exact ⟨rfl, rfl, rfl⟩

/-- C2 witness: a release with no save requested and a failing RCON
score call still completes the transition. -/
theorem c2_witness :
    (∃ resp, (release_session
        ⟨[⟨"carl", 0, 0⟩],
         [⟨"s3", "carl", 2, 10, none, none, Status.active, none, none⟩],
         [], [], [], [(2, "carl")], []⟩
        "s3" none 200 (ScoreReply.exn "e") false ⟨"r", "p", "i", "f"⟩ true).2 =
      .ok resp) ∧
    (⟨"s3", "carl", 2, 10, some 200, some 0, Status.completed, none, none⟩ :
        SessionRow) ∈
      (release_session
        ⟨[⟨"carl", 0, 0⟩],
         [⟨"s3", "carl", 2, 10, none, none, Status.active, none, none⟩],
         [], [], [], [(2, "carl")], []⟩
        "s3" none 200 (ScoreReply.exn "e") false ⟨"r", "p", "i", "f"⟩ true).1.sessions ∧
    (release_session
        ⟨[⟨"carl", 0, 0⟩],
         [⟨"s3", "carl", 2, 10, none, none, Status.active, none, none⟩],
         [], [], [], [(2, "carl")], []⟩
        "s3" none 200 (ScoreReply.exn "e") false ⟨"r", "p", "i", "f"⟩ true).1.sessions.filter
      (fun s => decide (s.sessionId = "s3" ∧ s.status = Status.active)) = [] ∧
    (∀ x, (2, x) ∉ (release_session
        ⟨[⟨"carl", 0, 0⟩],
         [⟨"s3", "carl", 2, 10, none, none, Status.active, none, none⟩],
         [], [], [], [(2, "carl")], []⟩
        "s3" none 200 (ScoreReply.exn "e") false ⟨"r", "p", "i", "f"⟩ true).1.locks) := by
  have h := c2_amended_release_failure_modes
    ⟨[⟨"carl", 0, 0⟩],
     [⟨"s3", "carl", 2, 10, none, none, Status.active, none, none⟩],
     [], [], [], [(2, "carl")], []⟩
    "s3" none 200 (ScoreReply.exn "e") false ⟨"r", "p", "i", "f"⟩ true
    ⟨"s3", "carl", 2, 10, none, none, Status.active, none, none⟩ (by decide)
  exact h.1 (Or.inl rfl)

/-- C6 counterexample: two autosave upserts under the same name leave
`playtime_seconds` at the first save's value (100), not the accumulated
100 + 50 — the expiry-path upsert's conflict branch does not touch the
playtime column. -/
theorem c6_counterexample :
    (upsertSaveAutosave
        (upsertSaveAutosave [] "alice" "autosave_77" "alice/autosave_77.zip" 10 100 77)
        "alice" "autosave_77" "alice/autosave_77.zip" 20 50 78).filter
      (saveKey "alice" "autosave_77") =
      [⟨"alice", "autosave_77", "alice/autosave_77.zip", 77, 78, 20, 100⟩] ∧
    ¬ ((upsertSaveAutosave
        (upsertSaveAutosave [] "alice" "autosave_77" "alice/autosave_77.zip" 10 100 77)
        "alice" "autosave_77" "alice/autosave_77.zip" 20 50 78).filter
      (saveKey "alice" "autosave_77") =
      [⟨"alice", "autosave_77", "alice/autosave_77.zip", 77, 78, 20, 100 + 50⟩]) := by
  refine ⟨rfl, ?_⟩
  decide

/-- C6 (amended): saving twice under one `(username, save_name)` key
updates the single existing row rather than duplicating it, with
`score_at_save` taking the latest score and `last_played` the latest
time in both paths; the release-path upsert accumulates the playtime
(`p1 + p2`) while the autosave-path upsert leaves the stored playtime at
its previous value (`p1`).  Neither conflict branch touches `file_path`
or `created_at`. -/
theorem c6_amended_save_upserts (saves : List SaveRow)
    (u nm path1 path2 : String) (sc1 sc2 p1 p2 : Int) (t1 t2 : Nat)
    (habs : ∀ r ∈ saves, ¬(r.username = u ∧ r.saveName = nm)) :
    (upsertSaveRelease (upsertSaveRelease saves u nm path1 sc1 p1 t1) u nm
        path2 sc2 p2 t2).filter (saveKey u nm) =
      [⟨u, nm, path1, t1, t2, sc2, p1 + p2⟩] ∧
    (upsertSaveAutosave (upsertSaveAutosave saves u nm path1 sc1 p1 t1) u nm
        path2 sc2 p2 t2).filter (saveKey u nm) =
      [⟨u, nm, path1, t1, t2, sc2, p1⟩] := by
  have hany : (saves.any fun r => decide (r.username = u ∧ r.saveName = nm)) = false := by
    refine List.any_eq_false.mpr ?_
    intro r hr
    simpa using habs r hr
  have hfilter0 : saves.filter (saveKey u nm) = [] := by
    refine List.filter_eq_nil_iff.mpr ?_
    intro r hr
    simpa [saveKey] using habs r hr
  have hany2 : ((saves ++ [(⟨u, nm, path1, t1, t1, sc1, p1⟩ : SaveRow)]).any
      fun r => decide (r.username = u ∧ r.saveName = nm)) = true := by
    refine List.any_eq_true.mpr ?_
    exact ⟨⟨u, nm, path1, t1, t1, sc1, p1⟩, by simp, by simp⟩
  constructor
  · have e1 : upsertSaveRelease saves u nm path1 sc1 p1 t1 =
        saves ++ [⟨u, nm, path1, t1, t1, sc1, p1⟩] := by
      unfold upsertSaveRelease
      rw [if_neg (by rw [hany]; simp)]
    rw [e1]
    unfold upsertSaveRelease
    rw [if_pos hany2]
    rw [filter_map_comm (by
      intro x
      by_cases hc : x.username = u ∧ x.saveName = nm <;> simp [saveKey, hc])]
    rw [List.filter_append, hfilter0]
    simp [saveKey]
  · have e1 : upsertSaveAutosave saves u nm path1 sc1 p1 t1 =
        saves ++ [⟨u, nm, path1, t1, t1, sc1, p1⟩] := by
      unfold upsertSaveAutosave
      rw [if_neg (by rw [hany]; simp)]
    rw [e1]
    unfold upsertSaveAutosave
    rw [if_pos hany2]
    rw [filter_map_comm (by
      intro x
      by_cases hc : x.username = u ∧ x.saveName = nm <;> simp [saveKey, hc])]
    rw [List.filter_append, hfilter0]
    simp [saveKey]

/-- C6 witness: both double-upserts starting from an empty saves
table. -/
theorem c6_witness :
    (upsertSaveRelease (upsertSaveRelease [] "dora" "base" "P1" 1 10 5) "dora"
        "base" "P2" 2 20 6).filter (saveKey "dora" "base") =
      [⟨"dora", "base", "P1", 5, 6, 2, 10 + 20⟩] ∧
    (upsertSaveAutosave (upsertSaveAutosave [] "dora" "base" "P1" 1 10 5) "dora"
        "base" "P2" 2 20 6).filter (saveKey "dora" "base") =
      [⟨"dora", "base", "P1", 5, 6, 2, 10⟩] :=
  c6_amended_save_upserts [] "dora" "base" "P1" "P2" 1 2 10 20 5 6 (by simp)
